import Mathlib

/-!
Verification of the HighFinesse WS6/WS7 wavelength-meter binding
(`src/high_finesse.py`) against its specification.

The binding is a thin property wrapper over an opaque vendor DLL.  We embed
it shallowly: the DLL call surface is an inductive `DllCall`, the backend's
observable state is a `Backend` record (readings are a type parameter `ρ`,
since the wrapper only moves them around), and every wrapper operation is a
pure function returning its result together with the exact list of DLL calls
it issued, its warnings, and the backend state after its mutations.
-/

set_option autoImplicit false

namespace HighFinesse

/-- A single call into the vendor DLL, with the arguments the wrapper passes.
Each constructor corresponds to one DLL entry point used by
`src/high_finesse.py`. -/
inductive DllCall where
  | GetWLMCount (arg : Int)
  | GetExposureModeNum (idx : Int) (b : Bool)
  | SetExposureModeNum (idx : Int) (value : Bool)
  | GetExposureNum (idx arr default : Int)
  | SetExposureNum (idx arr value : Int)
  | GetFrequencyNum (idx default : Int)
  | GetWavelengthNum (idx default : Int)
  | GetSwitcherSignalStates (idx : Int)
  | SetSwitcherSignalStates (idx useF showF : Int)
  | GetSwitcherMode (arg : Int)
  | SetSwitcherMode (value : Int)
  | GetOperationState (arg : Int)
  | Operation (code : Int)
  deriving DecidableEq, Repr

/-- The channel index carried by a per-channel DLL call; `none` for
device-wide calls (`GetSwitcherMode`, `Operation`, ...). -/
def DllCall.chanIdx : DllCall → Option Int
  | DllCall.GetExposureModeNum idx _ => some idx
  | DllCall.SetExposureModeNum idx _ => some idx
  | DllCall.GetExposureNum idx _ _ => some idx
  | DllCall.SetExposureNum idx _ _ => some idx
  | DllCall.GetFrequencyNum idx _ => some idx
  | DllCall.GetWavelengthNum idx _ => some idx
  | DllCall.GetSwitcherSignalStates idx => some idx
  | DllCall.SetSwitcherSignalStates idx _ _ => some idx
  | _ => none

/-- Whether a DLL call mutates backend state (a `Set...`/`Operation`
command) as opposed to a pure query. -/
def DllCall.isMutation : DllCall → Bool
  | DllCall.SetExposureModeNum _ _ => true
  | DllCall.SetExposureNum _ _ _ => true
  | DllCall.SetSwitcherSignalStates _ _ _ => true
  | DllCall.SetSwitcherMode _ => true
  | DllCall.Operation _ => true
  | _ => false

/-- The CCD-array index of an exposure-time write, `none` for any other
call. -/
def DllCall.expArr : DllCall → Option Int
  | DllCall.SetExposureNum _ arr _ => some arr
  | _ => none

/-- Observable state of the opaque vendor backend, per the spec's external
call surface: server count, device-wide switcher mode and operation-state
code, and per-backend-channel tables for the use/show flags, the
auto-exposure mode, the exposure times, and the frequency/wavelength
readings.  Readings are an arbitrary type `ρ` because the wrapper passes
them through untouched. -/
structure Backend (ρ : Type) where
  wlmCount : Int
  switcherMode : Int
  useFlag : Int → Int
  showFlag : Int → Int
  exposureMode : Int → Bool
  exposureTime : Int → Int → Int
  opState : Int
  frequencyNum : Int → Int → ρ
  wavelengthNum : Int → Int → ρ

/-- Effect of one DLL call on the backend state: commands update the
corresponding table at the given index, queries leave the state unchanged. -/
def Backend.apply {ρ : Type} (b : Backend ρ) : DllCall → Backend ρ
  | DllCall.SetExposureModeNum idx v =>
      { b with exposureMode := fun j => if j = idx then v else b.exposureMode j }
  | DllCall.SetExposureNum idx arr v =>
      { b with exposureTime := fun j a => if j = idx ∧ a = arr then v else b.exposureTime j a }
  | DllCall.SetSwitcherSignalStates idx u s =>
      { b with useFlag := fun j => if j = idx then u else b.useFlag j,
               showFlag := fun j => if j = idx then s else b.showFlag j }
  | DllCall.SetSwitcherMode v => { b with switcherMode := v }
  | DllCall.Operation code => { b with opState := code }
  | _ => b

/-- Python `int(bool_value)`. -/
def intOfBool : Bool → Int
  | true => 1
  | false => 0

/-- Error of `WavelengthMeter.__init__` when `GetWLMCount(0) == 0`. -/
def initErrMsg : String := "There is no running wavelength meter server instance."

/-- Error of `Channel.__init__` when the parent is not a `WavelengthMeter`. -/
def channelTypeErrMsg : String := "Must initialize channel from `WavelengthMeter` class."

/-- Error of the `exposure` setter for a list of invalid length (the two
adjacent source string literals concatenated). -/
def exposureErrMsg : String :=
  "You must set one or two values (as list) for the CCD array exposure times."

/-- Warning issued by the `use_channel` / `show_channel` setters when the
switcher mode is off (the two adjacent source string literals concatenated,
reproducing the missing space of the source). -/
def switcherWarnMsg : String :=
  "Switcher mode not active, therefore cannot use thisfunction."

/-- Error of the `operation` setter for a value failing the
`isinstance(value, OperationState)` check. -/
def operationTypeErrMsg : String := "Your chosen value is not of type `OperationState`."

/-- Modelled from the spec: the module `headers.wlmConst` is imported by the
source but is not under `src/`; the spec only requires three fixed, distinct
backend integer codes for the operation states.  `cAdjustment` is the code
of the adjustment state. -/
def cAdjustment : Int := 1

/-- Modelled from the spec: `headers.wlmConst` is not under `src/`;
`cMeasurement` is the fixed backend code of the measurement state, distinct
from the other two codes. -/
def cMeasurement : Int := 2

/-- Modelled from the spec: `headers.wlmConst` is not under `src/`; `cStop`
is the fixed backend code of the stop state, distinct from the other two
codes. -/
def cStop : Int := 0

/-- The `OperationState` enum of the facade (`adjustment`, `measurement`,
`stop`). -/
inductive OperationState where
  | adjustment
  | measurement
  | stop
  deriving DecidableEq, Repr

/-- The backend integer code attached to each enum member
(`wlmConst.cAdjustment` etc.). -/
def OperationState.code : OperationState → Int
  | OperationState.adjustment => cAdjustment
  | OperationState.measurement => cMeasurement
  | OperationState.stop => cStop

/-- Message of the `ValueError` Python raises for `OperationState(raw)` when
no member has value `raw`. -/
def decodeErrMsg (raw : Int) : String :=
  toString raw ++ " is not a valid OperationState"

/-- Python's `OperationState(raw)` enum lookup by value: returns the member
whose code equals `raw`, testing the members in declaration order, and
raises `ValueError` when no member matches. -/
def OperationState.decode (raw : Int) : Except String OperationState :=
  if raw = cAdjustment then Except.ok OperationState.adjustment
  else if raw = cMeasurement then Except.ok OperationState.measurement
  else if raw = cStop then Except.ok OperationState.stop
  else Except.error (decodeErrMsg raw)

/-- A `Channel` object as built by `Channel.__init__`: it stores only the
1-based backend index `self._idx` (the parent reference is the backend
handle, passed explicitly to every operation here). -/
structure Channel where
  idx : Int
  deriving DecidableEq, Repr

/-- The body of `Channel.__init__` after the `isinstance` check:
`self._idx = idx + 1` (pythonic 0-based argument, 1-based backend index). -/
def mkChannel (i : Int) : Channel := { idx := i + 1 }

/-- The shape of the `parent` argument of `Channel.__init__` as far as the
`isinstance(parent, WavelengthMeter)` check observes it. -/
inductive ChannelParent where
  | wlm
  | other

/-- `Channel.__init__`: a parent that is not a `WavelengthMeter` raises
`TypeError` before any attribute is set; otherwise the channel stores
`idx + 1` with no range check on `idx`. -/
def Channel.init (parent : ChannelParent) (idx : Int) : Except String Channel :=
  match parent with
  | ChannelParent.wlm => Except.ok (mkChannel idx)
  | ChannelParent.other => Except.error channelTypeErrMsg

/-- Outcome of a (non-raising) setter: the backend state after the call,
the DLL calls issued in order, and the warnings emitted. -/
structure SetOutcome (ρ : Type) where
  backend : Backend ρ
  calls : List DllCall
  warnings : List String

/-- The DLL calls issued by a fallible setter: a raise happens before any
DLL call in the source, so the error branch issued none. -/
def callsOfResult {ρ : Type} : Except String (SetOutcome ρ) → List DllCall
  | Except.error _ => []
  | Except.ok o => o.calls

/-- `Except.isOk`, kept local so it is stable under the toolchain. -/
def exceptIsOk {ε α : Type} : Except ε α → Bool
  | Except.ok _ => true
  | Except.error _ => false

/-- `auto_exposure` getter: `bool(GetExposureModeNum(self._idx, True))`. -/
def Channel.auto_exposure_get {ρ : Type} (c : Channel) (b : Backend ρ) :
    Bool × List DllCall :=
  (b.exposureMode c.idx, [DllCall.GetExposureModeNum c.idx true])

/-- `auto_exposure` setter: `SetExposureModeNum(self._idx, value)`. -/
def Channel.auto_exposure_set {ρ : Type} (c : Channel) (b : Backend ρ) (value : Bool) :
    SetOutcome ρ :=
  { backend := b.apply (DllCall.SetExposureModeNum c.idx value),
    calls := [DllCall.SetExposureModeNum c.idx value],
    warnings := [] }

/-- `exposure` getter: `[GetExposureNum(self._idx, 1, 0), GetExposureNum(self._idx, 2, 0)]`. -/
def Channel.exposure_get {ρ : Type} (c : Channel) (b : Backend ρ) :
    List Int × List DllCall :=
  ([b.exposureTime c.idx 1, b.exposureTime c.idx 2],
   [DllCall.GetExposureNum c.idx 1 0, DllCall.GetExposureNum c.idx 2 0])

/-- Argument of the `exposure` setter: either a bare (non-list) value or a
list, as distinguished by the source's `isinstance(value, list)` check. -/
inductive ExposureArg where
  | single (v : Int)
  | list (vs : List Int)

/-- `exposure` setter.  A bare value is wrapped into `[value]`; a list whose
length is not in `1..2` raises `ValueError` before any DLL call; otherwise
`SetExposureNum(self._idx, 1, value[0])` is issued, followed by
`SetExposureNum(self._idx, 2, value[1])` exactly when the length is 2.  The
length guard `1 <= len(value) <= 2` and the subsequent indexing are rendered
as the structural match on the list. -/
def Channel.exposure_set {ρ : Type} (c : Channel) (b : Backend ρ) (arg : ExposureArg) :
    Except String (SetOutcome ρ) :=
  let value : List Int :=
    match arg with
    | ExposureArg.single v => [v]
    | ExposureArg.list vs => vs
  match value with
  | [v1] =>
      Except.ok { backend := b.apply (DllCall.SetExposureNum c.idx 1 v1),
                  calls := [DllCall.SetExposureNum c.idx 1 v1],
                  warnings := [] }
  | [v1, v2] =>
      Except.ok { backend := (b.apply (DllCall.SetExposureNum c.idx 1 v1)).apply
                      (DllCall.SetExposureNum c.idx 2 v2),
                  calls := [DllCall.SetExposureNum c.idx 1 v1,
                            DllCall.SetExposureNum c.idx 2 v2],
                  warnings := [] }
  | _ => Except.error exposureErrMsg

/-- `frequency` getter: `GetFrequencyNum(self._idx, 0)`. -/
def Channel.frequency {ρ : Type} (c : Channel) (b : Backend ρ) : ρ × List DllCall :=
  (b.frequencyNum c.idx 0, [DllCall.GetFrequencyNum c.idx 0])

/-- `wavelength` getter: `GetWavelengthNum(self._idx, 0)`. -/
def Channel.wavelength {ρ : Type} (c : Channel) (b : Backend ρ) : ρ × List DllCall :=
  (b.wavelengthNum c.idx 0, [DllCall.GetWavelengthNum c.idx 0])

/-- `show_channel` getter: `GetSwitcherSignalStates(self._idx, byref(use),
byref(show))`, returning `bool(show_flag)`. -/
def Channel.show_channel_get {ρ : Type} (c : Channel) (b : Backend ρ) :
    Bool × List DllCall :=
  (b.showFlag c.idx != 0, [DllCall.GetSwitcherSignalStates c.idx])

/-- `use_channel` getter: same DLL call, returning `bool(use_flag)`. -/
def Channel.use_channel_get {ρ : Type} (c : Channel) (b : Backend ρ) :
    Bool × List DllCall :=
  (b.useFlag c.idx != 0, [DllCall.GetSwitcherSignalStates c.idx])

/-- `switcher_mode` getter of the facade: `bool(GetSwitcherMode(0))`. -/
def WavelengthMeter.switcher_mode_get {ρ : Type} (b : Backend ρ) :
    Bool × List DllCall :=
  (b.switcherMode != 0, [DllCall.GetSwitcherMode 0])

/-- `switcher_mode` setter of the facade: `SetSwitcherMode(int(value))`. -/
def WavelengthMeter.switcher_mode_set {ρ : Type} (b : Backend ρ) (value : Bool) :
    SetOutcome ρ :=
  { backend := b.apply (DllCall.SetSwitcherMode (intOfBool value)),
    calls := [DllCall.SetSwitcherMode (intOfBool value)],
    warnings := [] }

/-- `show_channel` setter: reads `self._parent.switcher_mode`; when on,
issues `SetSwitcherSignalStates(self._idx, 1, int(value))` — note the use
flag is the constant `1`, not a re-read of the current use flag; when off,
only warns. -/
def Channel.show_channel_set {ρ : Type} (c : Channel) (b : Backend ρ) (value : Bool) :
    SetOutcome ρ :=
  if (WavelengthMeter.switcher_mode_get b).1 then
    { backend := b.apply (DllCall.SetSwitcherSignalStates c.idx 1 (intOfBool value)),
      calls := (WavelengthMeter.switcher_mode_get b).2 ++
               [DllCall.SetSwitcherSignalStates c.idx 1 (intOfBool value)],
      warnings := [] }
  else
    { backend := b,
      calls := (WavelengthMeter.switcher_mode_get b).2,
      warnings := [switcherWarnMsg] }

/-- `use_channel` setter: reads `self._parent.switcher_mode`; when on,
re-reads `self.show_channel` and issues
`SetSwitcherSignalStates(self._idx, int(value), int(show))`; when off, only
warns. -/
def Channel.use_channel_set {ρ : Type} (c : Channel) (b : Backend ρ) (value : Bool) :
    SetOutcome ρ :=
  if (WavelengthMeter.switcher_mode_get b).1 then
    { backend := b.apply (DllCall.SetSwitcherSignalStates c.idx (intOfBool value)
        (intOfBool (c.show_channel_get b).1)),
      calls := (WavelengthMeter.switcher_mode_get b).2 ++ (c.show_channel_get b).2 ++
               [DllCall.SetSwitcherSignalStates c.idx (intOfBool value)
                 (intOfBool (c.show_channel_get b).1)],
      warnings := [] }
  else
    { backend := b,
      calls := (WavelengthMeter.switcher_mode_get b).2,
      warnings := [switcherWarnMsg] }

/-- Modelled from the spec: `utils.ProxyList` is imported by the source but
is not under `src/`.  Per the spec's IndexedProxyCollection contract,
indexing with a member of the supplied index set constructs
`factory(owner, index)` afresh, and indexing outside the index set fails
with an out-of-range error. -/
def ProxyList.get {α : Type} (factory : Int → α) (validIndices : List Int) (i : Int) :
    Except String α :=
  if i ∈ validIndices then Except.ok (factory i) else Except.error "Index out of range."

/-- `WavelengthMeter.channel[i]`: the facade's `channel` property returns
`ProxyList(self, self.Channel, range(8))`; indexing it at `i` constructs
`Channel(self, i)` (whose `isinstance` check succeeds, so the factory is the
success branch `mkChannel`). -/
def WavelengthMeter.channelAt (i : Int) : Except String Channel :=
  ProxyList.get mkChannel ((List.range 8).map Int.ofNat) i

/-- `WavelengthMeter.__init__` after loading the DLL: queries
`GetWLMCount(0)` once and raises `IOError` when the count is 0.  No
`Channel` object is constructed during initialization (channels are built on
demand by the `channel` property). -/
def WavelengthMeter.init {ρ : Type} (b : Backend ρ) :
    Except String Unit × List DllCall :=
  if b.wlmCount = 0 then (Except.error initErrMsg, [DllCall.GetWLMCount 0])
  else (Except.ok (), [DllCall.GetWLMCount 0])

/-- `frequencies` property: `[self.channel[it].frequency for it in range(8)]`. -/
def WavelengthMeter.frequencies {ρ : Type} (b : Backend ρ) : List ρ :=
  (List.range 8).map fun it => ((mkChannel (Int.ofNat it)).frequency b).1

/-- `wavelengths` property: `[self.channel[it].wavelength for it in range(8)]`. -/
def WavelengthMeter.wavelengths {ρ : Type} (b : Backend ρ) : List ρ :=
  (List.range 8).map fun it => ((mkChannel (Int.ofNat it)).wavelength b).1

/-- `operation` getter: `OperationState(GetOperationState(0))`. -/
def WavelengthMeter.operation_get {ρ : Type} (b : Backend ρ) :
    Except String OperationState × List DllCall :=
  (OperationState.decode b.opState, [DllCall.GetOperationState 0])

/-- Argument of the `operation` setter as observed by its
`isinstance(value, OperationState)` check: an enum member, or any other
value (carried as a raw integer). -/
inductive OperationArg where
  | state (s : OperationState)
  | raw (v : Int)

/-- `operation` setter: a non-member raises `TypeError` before any DLL call;
a member issues `Operation(value.value)` with the member's code. -/
def WavelengthMeter.operation_set {ρ : Type} (b : Backend ρ) (value : OperationArg) :
    Except String (SetOutcome ρ) :=
  match value with
  | OperationArg.raw _ => Except.error operationTypeErrMsg
  | OperationArg.state s =>
      Except.ok { backend := b.apply (DllCall.Operation s.code),
                  calls := [DllCall.Operation s.code],
                  warnings := [] }

/-- `true` when every per-channel call in the list addresses backend channel
index `k` (device-wide calls carry no channel index and are ignored). -/
def addressesB (calls : List DllCall) (k : Int) : Bool :=
  calls.all fun c =>
    match c.chanIdx with
    | some j => j == k
    | none => true

/-- A concrete backend used to instantiate theorems: switcher mode on, all
flags clear, distinct readings per channel and array. -/
def sampleBackend : Backend Int :=
  { wlmCount := 1
    switcherMode := 1
    useFlag := fun _ => 0
    showFlag := fun _ => 0
    exposureMode := fun _ => false
    exposureTime := fun _ _ => 10
    opState := 2
    frequencyNum := fun j a => 100 * j + a
    wavelengthNum := fun j a => 200 * j + a }

/-- The same concrete backend with switcher mode off. -/
def sampleBackendOff : Backend Int :=
  { sampleBackend with switcherMode := 0 }

/-- C9: facade construction queries the active-measurement-server count
exactly once; it fails with the connectivity error exactly when the count is
zero and succeeds exactly when it is nonzero.  (`WavelengthMeter.init`
returns `Unit` on success: no `Channel` object is constructed during
initialization.) -/
theorem c9_init_connectivity (ρ : Type) (b : Backend ρ) :
    (WavelengthMeter.init b).2 = [DllCall.GetWLMCount 0] ∧
    ((WavelengthMeter.init b).1 = Except.error initErrMsg ↔ b.wlmCount = 0) ∧
    ((WavelengthMeter.init b).1 = Except.ok () ↔ b.wlmCount ≠ 0) := by
  unfold WavelengthMeter.init
  by_cases hc : b.wlmCount = 0 <;> simp [hc]

/-- C10: constructing a `Channel` with a non-`WavelengthMeter` parent raises
`TypeError` (before any state is set); with a `WavelengthMeter` parent it
succeeds for any integer index, storing `idx + 1` with no range check; the
`[0,7]` restriction is enforced only by the channel collection
(`ProxyList` over `range(8)`), whose indexing fails out of range. -/
theorem c10_channel_ctor_no_range_check (idx i : Int) (hout : i < 0 ∨ 7 < i) :
    Channel.init ChannelParent.other idx = Except.error channelTypeErrMsg ∧
    Channel.init ChannelParent.wlm idx = Except.ok (mkChannel idx) ∧
    (mkChannel idx).idx = idx + 1 ∧
    WavelengthMeter.channelAt i = Except.error "Index out of range." := by
  refine ⟨rfl, rfl, rfl, ?_⟩
  have hli : (List.range 8).map Int.ofNat = [0, 1, 2, 3, 4, 5, 6, 7] := by decide
  have hmem : i ∉ (List.range 8).map Int.ofNat := by
    rw [hli]; simp; omega
  simp [WavelengthMeter.channelAt, ProxyList.get, hmem]

/-- Witness for C10 at the concrete out-of-range channel-collection index 9
and the unchecked constructor index 42. -/
theorem c10_channel_ctor_no_range_check_witness :
    Channel.init ChannelParent.other 42 = Except.error channelTypeErrMsg ∧
    Channel.init ChannelParent.wlm 42 = Except.ok (mkChannel 42) ∧
    (mkChannel 42).idx = 42 + 1 ∧
    WavelengthMeter.channelAt 9 = Except.error "Index out of range." :=
  c10_channel_ctor_no_range_check 42 9 (by decide)

/-- C4: the `exposure` setter accepts a bare value and lists of length 1 or
2, and rejects (with the `ValueError` message, before any DLL call) the
empty list and every list of three or more values. -/
theorem c4_exposure_length_validation (ρ : Type) (b : Backend ρ)
    (i v v1 v2 v3 : Int) (vs : List Int) :
    exceptIsOk ((mkChannel i).exposure_set b (ExposureArg.single v)) = true ∧
    (exceptIsOk ((mkChannel i).exposure_set b (ExposureArg.list vs)) = true ↔
      vs.length = 1 ∨ vs.length = 2) ∧
    (mkChannel i).exposure_set b (ExposureArg.list []) = Except.error exposureErrMsg ∧
    (mkChannel i).exposure_set b (ExposureArg.list (v1 :: v2 :: v3 :: vs)) =
      Except.error exposureErrMsg := by
  refine ⟨rfl, ?_, rfl, rfl⟩
  rcases vs with _ | ⟨a, _ | ⟨c, _ | ⟨d, t⟩⟩⟩ <;>
    simp [Channel.exposure_set, exceptIsOk]

/-- C5: setting `exposure` with one value issues exactly one exposure-time
write, for CCD array 1 (none of its calls targets array 2, and the array-2
exposure table of every channel is unchanged); setting with two values
writes array 1 then array 2, in that order. -/
theorem c5_exposure_write_order (ρ : Type) (b : Backend ρ) (i v1 v2 j : Int) :
    (mkChannel i).exposure_set b (ExposureArg.list [v1]) =
      Except.ok { backend := b.apply (DllCall.SetExposureNum (i + 1) 1 v1),
                  calls := [DllCall.SetExposureNum (i + 1) 1 v1], warnings := [] } ∧
    (mkChannel i).exposure_set b (ExposureArg.single v1) =
      Except.ok { backend := b.apply (DllCall.SetExposureNum (i + 1) 1 v1),
                  calls := [DllCall.SetExposureNum (i + 1) 1 v1], warnings := [] } ∧
    ((callsOfResult ((mkChannel i).exposure_set b (ExposureArg.list [v1]))).all
      fun c => c.expArr != some 2) = true ∧
    (b.apply (DllCall.SetExposureNum (i + 1) 1 v1)).exposureTime j 2 =
      b.exposureTime j 2 ∧
    (mkChannel i).exposure_set b (ExposureArg.list [v1, v2]) =
      Except.ok { backend := (b.apply (DllCall.SetExposureNum (i + 1) 1 v1)).apply
                      (DllCall.SetExposureNum (i + 1) 2 v2),
                  calls := [DllCall.SetExposureNum (i + 1) 1 v1,
                            DllCall.SetExposureNum (i + 1) 2 v2],
                  warnings := [] } := by
  refine ⟨rfl, rfl, rfl, ?_, rfl⟩
  simp [Backend.apply]

/-- C6: setting `operation` to a value that is not an `OperationState`
member raises `TypeError` and issues no DLL call; setting it to a member
issues the backend `Operation` command with that member's integer code. -/
theorem c6_operation_set_validation (ρ : Type) (b : Backend ρ)
    (s : OperationState) (rawv : Int) :
    WavelengthMeter.operation_set b (OperationArg.raw rawv) =
      Except.error operationTypeErrMsg ∧
    callsOfResult (WavelengthMeter.operation_set b (OperationArg.raw rawv)) = [] ∧
    WavelengthMeter.operation_set b (OperationArg.state s) =
      Except.ok { backend := b.apply (DllCall.Operation s.code),
                  calls := [DllCall.Operation s.code], warnings := [] } ∧
    (b.apply (DllCall.Operation s.code)).opState = s.code :=
  ⟨rfl, rfl, rfl, rfl⟩

/-- C7: reading `operation` returns the enum member whose code equals the
backend's raw state — `Except.ok s` exactly when the state equals `s.code` —
is successful exactly when the state is one of the three known codes, and
fails with the decoding error otherwise (e.g. at the undefined code 99),
never coercing or defaulting. -/
theorem c7_operation_get_decoding (ρ : Type) (b : Backend ρ) (s : OperationState) :
    ((WavelengthMeter.operation_get b).1 = Except.ok s ↔ b.opState = s.code) ∧
    (exceptIsOk (WavelengthMeter.operation_get b).1 = true ↔
      (b.opState = cAdjustment ∨ b.opState = cMeasurement ∨ b.opState = cStop)) ∧
    (WavelengthMeter.operation_get { sampleBackend with opState := 99 }).1 =
      Except.error (decodeErrMsg 99) := by
  refine ⟨?_, ?_, rfl⟩
  · unfold WavelengthMeter.operation_get OperationState.decode
    cases s <;>
      simp only [OperationState.code, cAdjustment, cMeasurement, cStop] <;>
      split_ifs with h1 h2 h3 <;> simp_all
  · unfold WavelengthMeter.operation_get OperationState.decode exceptIsOk
    split_ifs with h1 h2 h3 <;> simp_all

/-- C8: `frequencies` and `wavelengths` each have exactly 8 entries; for
every index `i < 8` the entry at position `i` is the value the per-channel
`frequency` / `wavelength` getter returns for the channel at logical index
`i` against the same backend state. -/
theorem c8_aggregate_lists_match_channels (ρ : Type) (b : Backend ρ)
    (i : Nat) (h : i < 8) :
    (WavelengthMeter.frequencies b).length = 8 ∧
    (WavelengthMeter.wavelengths b).length = 8 ∧
    (WavelengthMeter.frequencies b)[i]? =
      some ((mkChannel (Int.ofNat i)).frequency b).1 ∧
    (WavelengthMeter.wavelengths b)[i]? =
      some ((mkChannel (Int.ofNat i)).wavelength b).1 := by
  refine ⟨by simp [WavelengthMeter.frequencies],
          by simp [WavelengthMeter.wavelengths], ?_, ?_⟩ <;>
    simp [WavelengthMeter.frequencies, WavelengthMeter.wavelengths,
          List.getElem?_map, List.getElem?_range, h]

/-- Witness for C8 at index 5 against the concrete sample backend. -/
theorem c8_aggregate_lists_match_channels_witness :
    (WavelengthMeter.frequencies sampleBackend).length = 8 ∧
    (WavelengthMeter.wavelengths sampleBackend).length = 8 ∧
    (WavelengthMeter.frequencies sampleBackend)[5]? =
      some ((mkChannel (Int.ofNat 5)).frequency sampleBackend).1 ∧
    (WavelengthMeter.wavelengths sampleBackend)[5]? =
      some ((mkChannel (Int.ofNat 5)).wavelength sampleBackend).1 :=
  c8_aggregate_lists_match_channels Int sampleBackend 5 (by decide)

/-- C3: with switcher mode off, the `use_channel` and `show_channel` setters
leave the backend state unchanged, issue no mutating DLL call (only the
`GetSwitcherMode` query), and return normally with the user-visible warning
rather than an error (their outcome type has no error case: the source
raises nothing on this path). -/
theorem c3_setters_noop_when_switcher_off (ρ : Type) (b : Backend ρ)
    (i : Int) (v : Bool) (hsw : b.switcherMode = 0) :
    ((mkChannel i).use_channel_set b v).backend = b ∧
    ((mkChannel i).use_channel_set b v).warnings = [switcherWarnMsg] ∧
    (((mkChannel i).use_channel_set b v).calls.all fun c => !c.isMutation) = true ∧
    ((mkChannel i).show_channel_set b v).backend = b ∧
    ((mkChannel i).show_channel_set b v).warnings = [switcherWarnMsg] ∧
    (((mkChannel i).show_channel_set b v).calls.all fun c => !c.isMutation) = true := by
  simp [Channel.use_channel_set, Channel.show_channel_set,
        WavelengthMeter.switcher_mode_get, hsw, DllCall.isMutation]

/-- Witness for C3 against the concrete sample backend with switcher mode
off, at channel 1. -/
theorem c3_setters_noop_when_switcher_off_witness :
    ((mkChannel 1).use_channel_set sampleBackendOff true).backend = sampleBackendOff ∧
    ((mkChannel 1).use_channel_set sampleBackendOff true).warnings = [switcherWarnMsg] ∧
    (((mkChannel 1).use_channel_set sampleBackendOff true).calls.all
      fun c => !c.isMutation) = true ∧
    ((mkChannel 1).show_channel_set sampleBackendOff true).backend = sampleBackendOff ∧
    ((mkChannel 1).show_channel_set sampleBackendOff true).warnings = [switcherWarnMsg] ∧
    (((mkChannel 1).show_channel_set sampleBackendOff true).calls.all
      fun c => !c.isMutation) = true :=
  c3_setters_noop_when_switcher_off Int sampleBackendOff 1 true rfl

/-- C2, counterexample: against a backend with switcher mode on and channel
1's use flag clear, setting `show_channel` flips the use flag read-back from
`false` to `true` — the setter passes the constant 1 as the use flag instead
of re-reading it, so the claim that setting `show_channel` preserves the
current use flag is false. -/
theorem c2_counterexample_show_set_overwrites_use :
    ((mkChannel 0).use_channel_get sampleBackend).1 = false ∧
    ((mkChannel 0).use_channel_get
        ((mkChannel 0).show_channel_set sampleBackend true).backend).1 = true := by
  decide

/-- C2 as amended: with switcher mode on, setting `use_channel` preserves
the `show_channel` read-back (it re-reads the show flag and passes it to the
combined call), while setting `show_channel` always leaves the use flag
read-back `true` — it passes the constant 1, enabling channel usage
regardless of the flag's prior value. -/
theorem c2_amended_use_preserves_show (ρ : Type) (b : Backend ρ)
    (i : Int) (v : Bool) (hsw : b.switcherMode ≠ 0) :
    ((mkChannel i).show_channel_get ((mkChannel i).use_channel_set b v).backend).1 =
      ((mkChannel i).show_channel_get b).1 ∧
    ((mkChannel i).use_channel_get ((mkChannel i).show_channel_set b v).backend).1 =
      true := by
  have hb : (WavelengthMeter.switcher_mode_get b).1 = true := by
    simpa [WavelengthMeter.switcher_mode_get] using hsw
  constructor
  · simp only [Channel.use_channel_set, hb, if_true, Channel.show_channel_get,
      Backend.apply, mkChannel]
    cases h : (b.showFlag (i + 1) != 0) <;> simp [intOfBool, h]
  · simp [Channel.show_channel_set, hb, Channel.use_channel_get, Backend.apply, mkChannel]

/-- Witness for the amended C2 against the concrete sample backend
(switcher mode on), channel 2. -/
theorem c2_amended_use_preserves_show_witness :
    ((mkChannel 2).show_channel_get
        ((mkChannel 2).use_channel_set sampleBackend false).backend).1 =
      ((mkChannel 2).show_channel_get sampleBackend).1 ∧
    ((mkChannel 2).use_channel_get
        ((mkChannel 2).show_channel_set sampleBackend false).backend).1 = true :=
  c2_amended_use_preserves_show Int sampleBackend 2 false (by decide)

/-- C1: for every logical index `i` in `[0,7]` the channel collection
yields the channel storing backend index `i + 1`, and every per-channel DLL
call issued by any of its operations (`auto_exposure`, `exposure`,
`frequency`, `wavelength`, `use_channel`, `show_channel`, getters and
setters) addresses backend index `i + 1`. -/
theorem c1_channel_addresses_index_plus_one (i : Int) (ρ : Type) (b : Backend ρ)
    (v : Bool) (arg : ExposureArg) (hlo : 0 ≤ i) (hhi : i ≤ 7) :
    WavelengthMeter.channelAt i = Except.ok (mkChannel i) ∧
    (mkChannel i).idx = i + 1 ∧
    addressesB ((mkChannel i).auto_exposure_get b).2 (i + 1) = true ∧
    addressesB ((mkChannel i).auto_exposure_set b v).calls (i + 1) = true ∧
    addressesB ((mkChannel i).exposure_get b).2 (i + 1) = true ∧
    addressesB (callsOfResult ((mkChannel i).exposure_set b arg)) (i + 1) = true ∧
    addressesB ((mkChannel i).frequency b).2 (i + 1) = true ∧
    addressesB ((mkChannel i).wavelength b).2 (i + 1) = true ∧
    addressesB ((mkChannel i).use_channel_get b).2 (i + 1) = true ∧
    addressesB ((mkChannel i).use_channel_set b v).calls (i + 1) = true ∧
    addressesB ((mkChannel i).show_channel_get b).2 (i + 1) = true ∧
    addressesB ((mkChannel i).show_channel_set b v).calls (i + 1) = true := by
  refine ⟨?_, rfl, ?_, ?_, ?_, ?_, ?_, ?_, ?_, ?_, ?_, ?_⟩
  · have hli : (List.range 8).map Int.ofNat = [0, 1, 2, 3, 4, 5, 6, 7] := by decide
    have hmem : i ∈ (List.range 8).map Int.ofNat := by rw [hli]; simp; omega
    simp [WavelengthMeter.channelAt, ProxyList.get, hmem]
  · simp [addressesB, Channel.auto_exposure_get, DllCall.chanIdx, mkChannel]
  · simp [addressesB, Channel.auto_exposure_set, DllCall.chanIdx, mkChannel]
  · simp [addressesB, Channel.exposure_get, DllCall.chanIdx, mkChannel]
  · rcases arg with w | vs
    · simp [addressesB, Channel.exposure_set, callsOfResult, DllCall.chanIdx, mkChannel]
    · rcases vs with _ | ⟨a, _ | ⟨c, _ | ⟨d, t⟩⟩⟩ <;>
        simp [addressesB, Channel.exposure_set, callsOfResult, DllCall.chanIdx, mkChannel]
  · simp [addressesB, Channel.frequency, DllCall.chanIdx, mkChannel]
  · simp [addressesB, Channel.wavelength, DllCall.chanIdx, mkChannel]
  · simp [addressesB, Channel.use_channel_get, DllCall.chanIdx, mkChannel]
  · cases hsw : (b.switcherMode != 0) <;>
      simp [addressesB, Channel.use_channel_set, WavelengthMeter.switcher_mode_get,
            Channel.show_channel_get, hsw, DllCall.chanIdx, mkChannel]
  · simp [addressesB, Channel.show_channel_get, DllCall.chanIdx, mkChannel]
  · cases hsw : (b.switcherMode != 0) <;>
      simp [addressesB, Channel.show_channel_set, WavelengthMeter.switcher_mode_get,
            hsw, DllCall.chanIdx, mkChannel]

/-- Witness for C1 at logical index 3 against the concrete sample backend,
with a one-element exposure write. -/
theorem c1_channel_addresses_index_plus_one_witness :
    WavelengthMeter.channelAt 3 = Except.ok (mkChannel 3) ∧
    (mkChannel 3).idx = 3 + 1 ∧
    addressesB ((mkChannel 3).auto_exposure_get sampleBackend).2 (3 + 1) = true ∧
    addressesB ((mkChannel 3).auto_exposure_set sampleBackend true).calls (3 + 1) = true ∧
    addressesB ((mkChannel 3).exposure_get sampleBackend).2 (3 + 1) = true ∧
    addressesB (callsOfResult
      ((mkChannel 3).exposure_set sampleBackend (ExposureArg.list [5]))) (3 + 1) = true ∧
    addressesB ((mkChannel 3).frequency sampleBackend).2 (3 + 1) = true ∧
    addressesB ((mkChannel 3).wavelength sampleBackend).2 (3 + 1) = true ∧
    addressesB ((mkChannel 3).use_channel_get sampleBackend).2 (3 + 1) = true ∧
    addressesB ((mkChannel 3).use_channel_set sampleBackend true).calls (3 + 1) = true ∧
    addressesB ((mkChannel 3).show_channel_get sampleBackend).2 (3 + 1) = true ∧
    addressesB ((mkChannel 3).show_channel_set sampleBackend true).calls (3 + 1) = true :=
  c1_channel_addresses_index_plus_one 3 Int sampleBackend true
    (ExposureArg.list [5]) (by decide) (by decide)

end HighFinesse
